import Mathlib

/-!
Shallow embedding of the forex-backend proxy (`server-twelvedata.js`, containing
the Twelve Data provider variant and the AlphaVantage provider variant) and
proofs about its cache, upstream client, demo generator and request handlers.

Modelling conventions:
* JS numbers are modelled as `ℚ`; timestamps (`Date.now()`) as `Nat` milliseconds.
* A JS `Map` is an association list with at most one entry per key in any
  reachable state; operations act on the first occurrence of a key.
* Network I/O (`fetch`, `res.json()`) is an oracle value of type `NetOutcome`
  passed to `fetchCandles`; `Math.random()` is an oracle `Nat → ℚ` consumed in
  call order; date formatting (`new Date(..).toISOString().split('T')[0]`) is an
  oracle `Nat → String` indexed by the loop counter.
* Thrown `Error` values are their `message` strings (the code only ever
  inspects `error.message`).
-/

namespace Forex

/-- The uniform candle shape `{time, open, high, low, close}` produced by both
provider variants and by the demo generator.  `open` is a Lean keyword, hence
the field name `open_`. -/
structure Candle where
  time : String
  open_ : ℚ
  high : ℚ
  low : ℚ
  close : ℚ
deriving DecidableEq, Repr

/-- A cache entry `{data, timestamp}` as stored by `Cache.set`. -/
structure CacheEntry where
  data : List Candle
  timestamp : Nat
deriving DecidableEq, Repr

/-- `Map.prototype.get`: first entry with the given key, if any. -/
def mapGet (m : List (String × CacheEntry)) (k : String) : Option CacheEntry :=
  match m with
  | [] => none
  | (k', v) :: rest => if k' = k then some v else mapGet rest k

/-- `Map.prototype.set`: overwrite the entry for `k` in place, else append. -/
def mapSet (m : List (String × CacheEntry)) (k : String) (v : CacheEntry) :
    List (String × CacheEntry) :=
  match m with
  | [] => [(k, v)]
  | (k', v') :: rest => if k' = k then (k, v) :: rest else (k', v') :: mapSet rest k v

/-- `Map.prototype.delete`: remove the entry with the given key. -/
def mapDelete (m : List (String × CacheEntry)) (k : String) :
    List (String × CacheEntry) :=
  match m with
  | [] => []
  | (k', v') :: rest => if k' = k then rest else (k', v') :: mapDelete rest k

/-- The `Cache` class: a `Map` plus the TTL in milliseconds. -/
structure Cache where
  cache : List (String × CacheEntry)
  ttl : Nat
deriving DecidableEq, Repr

/-- `Cache.prototype.get`, with `Date.now()` made explicit as `now`.  Returns
the looked-up data (`none` models the JS `null` miss) together with the cache
state after the call (lazy expiry may delete the entry). -/
def Cache.get (c : Cache) (now : Nat) (key : String) :
    Option (List Candle) × Cache :=
  match mapGet c.cache key with
  | none => (none, c)
  | some item =>
    if now - item.timestamp > c.ttl then
      (none, { c with cache := mapDelete c.cache key })
    else
      (some item.data, c)

/-- `Cache.prototype.set`, with `Date.now()` made explicit as `now`. -/
def Cache.set (c : Cache) (now : Nat) (key : String) (data : List Candle) : Cache :=
  { c with cache := mapSet c.cache key ⟨data, now⟩ }

/-- `Cache.prototype.clear`. -/
def Cache.clear (c : Cache) : Cache :=
  { c with cache := [] }

/-- `Cache.prototype.size`. -/
def Cache.size (c : Cache) : Nat :=
  c.cache.length

@[simp] theorem mapGet_nil (k : String) : mapGet [] k = none := rfl

theorem mapGet_mapSet_self (m : List (String × CacheEntry)) (k : String)
    (v : CacheEntry) : mapGet (mapSet m k v) k = some v := by
  induction m with
  | nil => simp [mapSet, mapGet]
  | cons hd tl ih =>
    by_cases h : hd.1 = k
    · simp [mapSet, mapGet, h]
    · simp [mapSet, mapGet, h, ih]

theorem length_mapDelete_of_get (m : List (String × CacheEntry)) (k : String)
    (e : CacheEntry) (h : mapGet m k = some e) :
    (mapDelete m k).length + 1 = m.length := by
  induction m with
  | nil => simp [mapGet] at h
  | cons hd tl ih =>
    by_cases hk : hd.1 = k
    · simp [mapDelete, hk]
    · simp [mapGet, hk] at h
      simp [mapDelete, hk, ih h]

theorem mapGet_mapDelete_self (m : List (String × CacheEntry)) (k : String)
    (hnd : (m.map Prod.fst).Nodup) : mapGet (mapDelete m k) k = none := by
  induction m with
  | nil => simp [mapDelete, mapGet]
  | cons hd tl ih =>
    simp only [List.map_cons, List.nodup_cons] at hnd
    by_cases hk : hd.1 = k
    · subst hk
      cases hget : mapGet tl hd.1 with
      | none => simp [mapDelete, hget]
      | some e =>
        exfalso
        apply hnd.1
        clear ih hnd
        induction tl with
        | nil => simp [mapGet] at hget
        | cons hd' tl' ih' =>
          by_cases h2 : hd'.1 = hd.1
          · simp [h2]
          · simp [mapGet, h2] at hget
            simp [ih' hget]
    · simp [mapDelete, hk, mapGet, ih hnd.2]

/-- Lexicographic comparison of char lists (code-unit order, as JS compares
strings). -/
def charListLe : List Char → List Char → Bool
  | [], _ => true
  | _ :: _, [] => false
  | a :: as, b :: bs => if a = b then charListLe as bs else decide (a < b)

/-- JS string comparison `a <= b`. -/
def strLe (a b : String) : Bool := charListLe a.data b.data

/-- The candle sequence is sorted ascending by `time` (oldest first). -/
def ascByTime (l : List Candle) : Prop :=
  List.Chain' (fun a b => strLe a.time b.time = true) l

/-- JS truthiness of `req.query.pair`: absent (`undefined`) or the empty
string are falsy. -/
def strFalsy : Option String → Bool
  | none => true
  | some s => s == ""

/-- JS truthiness of an optional string field such as `data.Note`. -/
def optTruthy : Option String → Bool
  | none => false
  | some s => !(s == "")

/-- String interpolation of an optional field: JS renders `undefined` when the
field is absent. -/
def optStr : Option String → String
  | none => "undefined"
  | some s => s

/-- The `catch` block of both `fetchCandles` variants: an error whose message
is `API_LIMIT_REACHED` is rethrown as `API_LIMIT`; every other error is
rethrown unchanged. -/
def catchMap (msg : String) : String :=
  if msg = "API_LIMIT_REACHED" then "API_LIMIT" else msg

/-- Result of one `fetchCandles` call: the value returned or the error thrown,
the cache state afterwards, and how many upstream HTTP requests were issued. -/
structure FetchOut where
  result : Except String (List Candle)
  cache : Cache
  networkCalls : Nat
deriving Repr

/-- Response body sent by a handler: either an error object
`{error, message}` or a `{candles}` payload. -/
inductive RespBody where
  | errorBody (error message : String)
  | candlesBody (candles : List Candle)
deriving DecidableEq, Repr

/-- An HTTP response: status code plus JSON body (`res.json` defaults the
status to 200). -/
structure HttpResponse where
  status : Nat
  body : RespBody
deriving DecidableEq, Repr

namespace TD

/-- One element of the Twelve Data `values` array, with its numeric fields
already read as numbers (`parseFloat` of the provider's strings). -/
structure TDItem where
  datetime : String
  open_ : ℚ
  high : ℚ
  low : ℚ
  close : ℚ
deriving DecidableEq, Repr

/-- The parsed Twelve Data JSON body: the fields `fetchCandles` inspects.
`values = none` models a missing `values` field or one that is not an array. -/
structure TDResponse where
  status : Option String
  code : Option Int
  message : Option String
  values : Option (List TDItem)
deriving DecidableEq, Repr

/-- Oracle for the network interaction of one `fetchCandles` call:
`fetchError` models `fetch` rejecting (network failure / timeout);
`response` carries `res.ok`, `res.status`, `res.statusText` and the outcome
of `res.json()` (`Except.error` models a JSON parse failure). -/
inductive NetOutcome where
  | fetchError (msg : String)
  | response (ok : Bool) (status : Nat) (statusText : String)
      (body : Except String TDResponse)
deriving Repr

/-- `twelveDataUrl(pair, interval)`.  `API_KEY` is passed explicitly.
JS `pair.slice(0, 3)` is `take 3`; `pair.slice(3, 6)` is `(drop 3).take 3`. -/
def twelveDataUrl (apiKey pair interval : String) : String :=
  let symbol := pair.take 3 ++ "/" ++ ((pair.drop 3).take 3)
  let mappedInterval :=
    if interval = "daily" then "1day"
    else if interval = "60min" then "1h"
    else if interval = "15min" then "15min"
    else interval
  "https://api.twelvedata.com/time_series?symbol=" ++ symbol ++
    "&interval=" ++ mappedInterval ++ "&outputsize=100&apikey=" ++ apiKey

/-- Map one Twelve Data record to the uniform candle shape. -/
def toCandle (item : TDItem) : Candle :=
  ⟨item.datetime, item.open_, item.high, item.low, item.close⟩

/-- `fetchCandles(url, pair, interval)` of the Twelve Data variant.  `net` is
the network oracle for this call and `now` the value of `Date.now()` during
it.  The cache is threaded explicitly; errors are the thrown messages after
the `catch` block's remapping. -/
def fetchCandles (net : NetOutcome) (now : Nat) (url pair interval : String)
    (c : Cache) : FetchOut :=
  let cacheKey := pair ++ "-" ++ interval
  match Cache.get c now cacheKey with
  | (some cached, c') => ⟨.ok cached, c', 0⟩
  | (none, c') =>
    match net with
    | .fetchError msg => ⟨.error (catchMap msg), c', 1⟩
    | .response ok status statusText body =>
      if !ok then
        ⟨.error (catchMap ("HTTP " ++ toString status ++ ": " ++ statusText)),
          c', 1⟩
      else
        match body with
        | .error jsonMsg => ⟨.error (catchMap jsonMsg), c', 1⟩
        | .ok data =>
          if data.status = some "error" then
            ⟨.error (catchMap ("API_ERROR: " ++ optStr data.message)), c', 1⟩
          else if data.code = some 429 then
            ⟨.error (catchMap "API_LIMIT_REACHED"), c', 1⟩
          else
            match data.values with
            | none => ⟨.error (catchMap "NO_TIME_SERIES_DATA"), c', 1⟩
            | some values =>
              let candles := values.map toCandle
              let result := candles.reverse
              ⟨.ok result, Cache.set c' now cacheKey result, 1⟩

end TD

/-- `parseFloat(x.toFixed(5))`: round to 5 decimal places.  Modelled over `ℚ`
with round-half-up; only monotonicity and exact values at non-tie points are
relied upon, which agree with the JS double computation on the inputs used. -/
def round5 (x : ℚ) : ℚ :=
  (round (x * 100000) : ℤ) / 100000

/-- The loop body of `generateDemoCandles`, unrolled over the remaining
iteration count `rem`; `i` is the loop counter, `price` the running price.
`rand n` is the value of the `n`-th `Math.random()` call (four calls per
iteration, in source order: change, close delta, high offset, low offset);
`fmtTime i` is the date string computed for iteration `i`. -/
def genDemoAux (fmtTime : Nat → String) (volatility : ℚ) (rand : Nat → ℚ) :
    Nat → Nat → ℚ → List Candle
  | 0, _, _ => []
  | rem + 1, i, price =>
    let change := (rand (4 * i) - 1/2) * volatility
    let price1 := price + change
    let o := price1
    let cl := price1 + (rand (4 * i + 1) - 1/2) * volatility * (1/2)
    let hi := max o cl + rand (4 * i + 2) * volatility * (3/10)
    let lo := min o cl - rand (4 * i + 3) * volatility * (3/10)
    Candle.mk (fmtTime i) (round5 o) (round5 hi) (round5 lo) (round5 cl) ::
      genDemoAux fmtTime volatility rand rem (i + 1) cl

/-- `generateDemoCandles(count, basePrice, volatility)`.  The unseeded
`Math.random()` stream and the date formatting are oracle parameters. -/
def generateDemoCandles (fmtTime : Nat → String) (count : Nat)
    (basePrice volatility : ℚ) (rand : Nat → ℚ) : List Candle :=
  genDemoAux fmtTime volatility rand count 0 basePrice

/-- The OHLC consistency property claimed for generated candles. -/
def candleOk (cd : Candle) : Prop :=
  cd.low ≤ cd.open_ ∧ cd.low ≤ cd.close ∧ cd.open_ ≤ cd.high ∧ cd.close ≤ cd.high

instance (cd : Candle) : Decidable (candleOk cd) :=
  inferInstanceAs (Decidable (_ ∧ _ ∧ _ ∧ _))

namespace TD

/-- The 400 `MISSING_PAIR` response shared by all three handlers. -/
def missingPairResp : HttpResponse :=
  ⟨400, .errorBody "MISSING_PAIR" "Pair parameter is required"⟩

/-- The 429 response of the Twelve Data variant's handlers. -/
def limitResp : HttpResponse :=
  ⟨429, .errorBody "API_LIMIT_REACHED"
    "Twelve Data API limit reached. Please try again later or enable DEMO_MODE."⟩

/-- JS truthiness of the `candles` value tested by `if (!candles)` after a
successful `fetchCandles`: an array object is always truthy, so the `NO_DATA`
throw is unreachable on the success path. -/
def arrayFalsy (_ : List Candle) : Bool := false

/-- Shared tail of the three handlers: run `fetchCandles`, test `!candles`,
and map the caught error message to a response exactly as the `catch` block
does. -/
def respond (out : FetchOut) : HttpResponse × Cache :=
  match out.result with
  | .ok candles =>
    if arrayFalsy candles then
      (⟨500, .errorBody "SERVER_ERROR" "NO_DATA"⟩, out.cache)
    else
      (⟨200, .candlesBody candles⟩, out.cache)
  | .error msg =>
    if msg = "API_LIMIT" then (limitResp, out.cache)
    else (⟨500, .errorBody "SERVER_ERROR" msg⟩, out.cache)

/-- `app.get("/api/daily")` of the Twelve Data variant.  `pair` is
`req.query.pair`; `demoMode`, `apiKey`, the random stream, the date formatter
and the network oracle are the ambient environment of the request. -/
def handleDaily (demoMode : Bool) (apiKey : String) (fmtTime : Nat → String)
    (rand : Nat → ℚ) (net : NetOutcome) (now : Nat) (pair : Option String)
    (c : Cache) : HttpResponse × Cache :=
  if strFalsy pair then (missingPairResp, c)
  else
    let p := pair.getD ""
    if demoMode then
      (⟨200, .candlesBody (generateDemoCandles fmtTime 100 (23/20) (1/100) rand)⟩, c)
    else
      let url := twelveDataUrl apiKey p "daily"
      respond (fetchCandles net now url p "daily" c)

/-- `app.get("/api/h1")` of the Twelve Data variant. -/
def handleH1 (demoMode : Bool) (apiKey : String) (fmtTime : Nat → String)
    (rand : Nat → ℚ) (net : NetOutcome) (now : Nat) (pair : Option String)
    (c : Cache) : HttpResponse × Cache :=
  if strFalsy pair then (missingPairResp, c)
  else
    let p := pair.getD ""
    if demoMode then
      (⟨200, .candlesBody (generateDemoCandles fmtTime 100 (23/20) (1/200) rand)⟩, c)
    else
      let url := twelveDataUrl apiKey p "60min"
      respond (fetchCandles net now url p "60min" c)

/-- `app.get("/api/m15")` of the Twelve Data variant. -/
def handleM15 (demoMode : Bool) (apiKey : String) (fmtTime : Nat → String)
    (rand : Nat → ℚ) (net : NetOutcome) (now : Nat) (pair : Option String)
    (c : Cache) : HttpResponse × Cache :=
  if strFalsy pair then (missingPairResp, c)
  else
    let p := pair.getD ""
    if demoMode then
      (⟨200, .candlesBody (generateDemoCandles fmtTime 100 (23/20) (1/500) rand)⟩, c)
    else
      let url := twelveDataUrl apiKey p "15min"
      respond (fetchCandles net now url p "15min" c)

end TD

namespace AV

/-- One OHLC record of an AlphaVantage time-series object, numeric fields
already read as numbers (`parseFloat` of `"1. open"` … `"4. close"`). -/
structure AVOhlc where
  open_ : ℚ
  high : ℚ
  low : ℚ
  close : ℚ
deriving DecidableEq, Repr

/-- The parsed AlphaVantage JSON body: the fields `fetchCandles` inspects.
`timeSeries` is `Object.entries` of the value under the first key containing
`"Time Series"` (in object insertion order); `none` models the absence of any
such key. -/
structure AVResponse where
  note : Option String
  errorMessage : Option String
  timeSeries : Option (List (String × AVOhlc))
deriving DecidableEq, Repr

/-- Network oracle for one AlphaVantage `fetchCandles` call, as for the
Twelve Data variant. -/
inductive NetOutcome where
  | fetchError (msg : String)
  | response (ok : Bool) (status : Nat) (statusText : String)
      (body : Except String AVResponse)
deriving Repr

/-- `alphaUrl(pair, interval)`.  `API_KEY` is passed explicitly. -/
def alphaUrl (apiKey pair interval : String) : String :=
  let base := pair.take 3
  let quote := (pair.drop 3).take 3
  if interval = "daily" then
    "https://www.alphavantage.co/query?function=FX_DAILY&from_symbol=" ++ base ++
      "&to_symbol=" ++ quote ++ "&apikey=" ++ apiKey
  else
    "https://www.alphavantage.co/query?function=FX_INTRADAY&from_symbol=" ++ base ++
      "&to_symbol=" ++ quote ++ "&interval=" ++ interval ++ "&apikey=" ++ apiKey

/-- Map one `[time, ohlc]` entry to the uniform candle shape. -/
def toCandle (entry : String × AVOhlc) : Candle :=
  ⟨entry.1, entry.2.open_, entry.2.high, entry.2.low, entry.2.close⟩

/-- `fetchCandles(url)` of the AlphaVantage variant: the cache key is the
full request URL; `data.Note` is tested (truthily) before
`data["Error Message"]`. -/
def fetchCandles (net : NetOutcome) (now : Nat) (url : String) (c : Cache) :
    FetchOut :=
  let cacheKey := url
  match Cache.get c now cacheKey with
  | (some cached, c') => ⟨.ok cached, c', 0⟩
  | (none, c') =>
    match net with
    | .fetchError msg => ⟨.error (catchMap msg), c', 1⟩
    | .response ok status statusText body =>
      if !ok then
        ⟨.error (catchMap ("HTTP " ++ toString status ++ ": " ++ statusText)),
          c', 1⟩
      else
        match body with
        | .error jsonMsg => ⟨.error (catchMap jsonMsg), c', 1⟩
        | .ok data =>
          if optTruthy data.note then
            ⟨.error (catchMap "API_LIMIT_REACHED"), c', 1⟩
          else if optTruthy data.errorMessage then
            ⟨.error (catchMap ("API_ERROR: " ++ optStr data.errorMessage)), c', 1⟩
          else
            match data.timeSeries with
            | none => ⟨.error (catchMap "NO_TIME_SERIES_DATA"), c', 1⟩
            | some series =>
              let candles := series.map toCandle
              let result := candles.reverse
              ⟨.ok result, Cache.set c' now cacheKey result, 1⟩

/-- The 429 response of the AlphaVantage variant's handlers. -/
def limitResp : HttpResponse :=
  ⟨429, .errorBody "API_LIMIT_REACHED"
    "AlphaVantage API limit reached. Please try again later or enable DEMO_MODE."⟩

/-- Shared tail of the AlphaVantage handlers, as `TD.respond`. -/
def respond (out : FetchOut) : HttpResponse × Cache :=
  match out.result with
  | .ok candles =>
    if TD.arrayFalsy candles then
      (⟨500, .errorBody "SERVER_ERROR" "NO_DATA"⟩, out.cache)
    else
      (⟨200, .candlesBody candles⟩, out.cache)
  | .error msg =>
    if msg = "API_LIMIT" then (limitResp, out.cache)
    else (⟨500, .errorBody "SERVER_ERROR" msg⟩, out.cache)

/-- `app.get("/api/daily")` of the AlphaVantage variant. -/
def handleDaily (demoMode : Bool) (apiKey : String) (fmtTime : Nat → String)
    (rand : Nat → ℚ) (net : NetOutcome) (now : Nat) (pair : Option String)
    (c : Cache) : HttpResponse × Cache :=
  if strFalsy pair then (TD.missingPairResp, c)
  else
    let p := pair.getD ""
    if demoMode then
      (⟨200, .candlesBody (generateDemoCandles fmtTime 100 (23/20) (1/100) rand)⟩, c)
    else
      let url := alphaUrl apiKey p "daily"
      respond (fetchCandles net now url c)

end AV

/-- C3: after `set(k, v)` at time `t0`, a `get(k)` at time `t` returns `v`
whenever `t - t0 ≤ ttl` and leaves the cache unchanged; whenever
`t - t0 > ttl` the same read misses, removes the entry, and `size()`
decreases by exactly one as a result of that read. -/
theorem cache_set_then_get (c : Cache) (k : String) (v : List Candle)
    (t0 t : Nat) :
    (t - t0 ≤ c.ttl →
      Cache.get (Cache.set c t0 k v) t k = (some v, Cache.set c t0 k v)) ∧
    (t - t0 > c.ttl →
      (Cache.get (Cache.set c t0 k v) t k).1 = none ∧
      Cache.size (Cache.get (Cache.set c t0 k v) t k).2 + 1
        = Cache.size (Cache.set c t0 k v)) := by
  have hget : mapGet (Cache.set c t0 k v).cache k = some ⟨v, t0⟩ :=
    mapGet_mapSet_self c.cache k ⟨v, t0⟩
  constructor
  · intro h
    have hn : ¬ (t - (⟨v, t0⟩ : CacheEntry).timestamp > (Cache.set c t0 k v).ttl) := by
      simp only [Cache.set]
      omega
    simp [Cache.get, hget, hn]
  · intro h
    have hy : t - (⟨v, t0⟩ : CacheEntry).timestamp > (Cache.set c t0 k v).ttl := by
      simp only [Cache.set]
      omega
    constructor
    · simp [Cache.get, hget, hy]
    · simp only [Cache.get, hget, hy, if_pos, Cache.size]
      exact length_mapDelete_of_get _ k ⟨v, t0⟩ hget

/-- Witness for `cache_set_then_get` at `ttl = 10`, `t0 = 0`, reads at
`t = 5` (fresh) and `t = 20` (expired). -/
theorem cache_set_then_get_witness :
    Cache.get (Cache.set ⟨[], 10⟩ 0 "k" []) 5 "k"
      = (some [], Cache.set ⟨[], 10⟩ 0 "k" []) ∧
    (Cache.get (Cache.set ⟨[], 10⟩ 0 "k" []) 20 "k").1 = none ∧
    Cache.size (Cache.get (Cache.set ⟨[], 10⟩ 0 "k" []) 20 "k").2 + 1
      = Cache.size (Cache.set ⟨[], 10⟩ 0 "k" []) :=
  ⟨(cache_set_then_get ⟨[], 10⟩ "k" [] 0 5).1 (by decide),
   (cache_set_then_get ⟨[], 10⟩ "k" [] 0 20).2 (by decide)⟩

/-- C7: `Cache.get` has no side effect beyond lazy expiry: a genuine miss
(no entry for the key) leaves the cache state exactly unchanged, and a fresh
hit returns the stored data with the cache state — in particular the entry's
`timestamp` — exactly unchanged, so a hit never extends a lifetime. -/
theorem cache_get_frame (c : Cache) (k : String) (now : Nat) :
    (mapGet c.cache k = none → Cache.get c now k = (none, c)) ∧
    (∀ e, mapGet c.cache k = some e → now - e.timestamp ≤ c.ttl →
      Cache.get c now k = (some e.data, c)) := by
  constructor
  · intro h
    simp [Cache.get, h]
  · intro e he h
    have hn : ¬ (now - e.timestamp > c.ttl) := by omega
    simp [Cache.get, he, hn]

/-- Witness for `cache_get_frame`: a genuine miss on an empty cache and a
fresh hit on a one-entry cache, both leaving the state untouched. -/
theorem cache_get_frame_witness :
    Cache.get ⟨[], 10⟩ 0 "k" = (none, ⟨[], 10⟩) ∧
    Cache.get ⟨[("k", ⟨[], 3⟩)], 10⟩ 5 "k" = (some [], ⟨[("k", ⟨[], 3⟩)], 10⟩) :=
  ⟨(cache_get_frame ⟨[], 10⟩ "k" 0).1 rfl,
   (cache_get_frame ⟨[("k", ⟨[], 3⟩)], 10⟩ "k" 5).2 ⟨[], 3⟩ rfl (by decide)⟩

/-- C8: after `clear()`, `size()` returns 0 and the next `get` on every key —
in particular every key stored before the clear — is a miss. -/
theorem cache_clear_resets (c : Cache) :
    Cache.size (Cache.clear c) = 0 ∧
    ∀ k now, (Cache.get (Cache.clear c) now k).1 = none := by
  refine ⟨rfl, fun k now => ?_⟩
  simp [Cache.get, Cache.clear, mapGet]

theorem cache_get_none_mapGet (c : Cache) (now : Nat) (k : String)
    (hnd : (c.cache.map Prod.fst).Nodup) (h : (Cache.get c now k).1 = none) :
    mapGet ((Cache.get c now k).2).cache k = none := by
  cases hm : mapGet c.cache k with
  | none => simp [Cache.get, hm]
  | some item =>
    by_cases hexp : now - item.timestamp > c.ttl
    · simp only [Cache.get, hm, hexp, if_pos]
      exact mapGet_mapDelete_self c.cache k hnd
    · simp [Cache.get, hm, hexp] at h

theorem td_fetchCandles_error_no_set (net : TD.NetOutcome) (now : Nat)
    (url pair interval : String) (c : Cache) (e : String)
    (h : (TD.fetchCandles net now url pair interval c).result = .error e) :
    (TD.fetchCandles net now url pair interval c).cache
      = (Cache.get c now (pair ++ "-" ++ interval)).2 := by
  rcases hg : Cache.get c now (pair ++ "-" ++ interval) with ⟨og, c'⟩
  simp only [TD.fetchCandles] at h ⊢
  rw [hg] at h ⊢
  cases og with
  | some cached => simp at h
  | none =>
    cases net with
    | fetchError msg => rfl
    | response ok status statusText body =>
      cases ok with
      | false => rfl
      | true =>
        cases body with
        | error jsonMsg => rfl
        | ok data =>
          by_cases h1 : data.status = some "error"
          · simp [h1]
          · by_cases h2 : data.code = some 429
            · simp [h1, h2]
            · cases hv : data.values with
              | none => simp [h1, h2, hv]
              | some values => simp [h1, h2, hv] at h

theorem av_fetchCandles_error_no_set (net : AV.NetOutcome) (now : Nat)
    (url : String) (c : Cache) (e : String)
    (h : (AV.fetchCandles net now url c).result = .error e) :
    (AV.fetchCandles net now url c).cache = (Cache.get c now url).2 := by
  rcases hg : Cache.get c now url with ⟨og, c'⟩
  simp only [AV.fetchCandles] at h ⊢
  rw [hg] at h ⊢
  cases og with
  | some cached => simp at h
  | none =>
    cases net with
    | fetchError msg => rfl
    | response ok status statusText body =>
      cases ok with
      | false => rfl
      | true =>
        cases body with
        | error jsonMsg => rfl
        | ok data =>
          by_cases h1 : optTruthy data.note = true
          · simp [h1]
          · by_cases h2 : optTruthy data.errorMessage = true
            · simp [h1, h2]
            · cases hv : data.timeSeries with
              | none => simp [h1, h2, hv]
              | some series => simp [h1, h2, hv] at h

theorem td_fetchCandles_error_miss (net : TD.NetOutcome) (now : Nat)
    (url pair interval : String) (c : Cache) (e : String)
    (h : (TD.fetchCandles net now url pair interval c).result = .error e) :
    (Cache.get c now (pair ++ "-" ++ interval)).1 = none := by
  rcases hg : Cache.get c now (pair ++ "-" ++ interval) with ⟨og, c'⟩
  simp only [TD.fetchCandles] at h
  rw [hg] at h
  cases og with
  | some cached => simp at h
  | none => rfl

theorem av_fetchCandles_error_miss (net : AV.NetOutcome) (now : Nat)
    (url : String) (c : Cache) (e : String)
    (h : (AV.fetchCandles net now url c).result = .error e) :
    (Cache.get c now url).1 = none := by
  rcases hg : Cache.get c now url with ⟨og, c'⟩
  simp only [AV.fetchCandles] at h
  rw [hg] at h
  cases og with
  | some cached => simp at h
  | none => rfl

/-- C9: whenever either `fetchCandles` variant ends in an error (of any
classification), `cache.set` is not reached: the resulting cache state is
exactly the state left by the initial `cache.get` (at most a lazy-expiry
deletion, never an insert or overwrite), and — for any well-formed cache,
i.e. one key per entry — the cache afterwards holds no entry for that key. -/
theorem fetch_error_no_store :
    (∀ (net : TD.NetOutcome) (now : Nat) (url pair interval : String)
       (c : Cache) (e : String),
       (TD.fetchCandles net now url pair interval c).result = .error e →
       (TD.fetchCandles net now url pair interval c).cache
         = (Cache.get c now (pair ++ "-" ++ interval)).2 ∧
       ((c.cache.map Prod.fst).Nodup →
         mapGet (TD.fetchCandles net now url pair interval c).cache.cache
           (pair ++ "-" ++ interval) = none)) ∧
    (∀ (net : AV.NetOutcome) (now : Nat) (url : String) (c : Cache) (e : String),
       (AV.fetchCandles net now url c).result = .error e →
       (AV.fetchCandles net now url c).cache = (Cache.get c now url).2 ∧
       ((c.cache.map Prod.fst).Nodup →
         mapGet (AV.fetchCandles net now url c).cache.cache url = none)) := by
  constructor
  · intro net now url pair interval c e h
    refine ⟨td_fetchCandles_error_no_set net now url pair interval c e h, fun hnd => ?_⟩
    rw [td_fetchCandles_error_no_set net now url pair interval c e h]
    exact cache_get_none_mapGet c now _ hnd
      (td_fetchCandles_error_miss net now url pair interval c e h)
  · intro net now url c e h
    refine ⟨av_fetchCandles_error_no_set net now url c e h, fun hnd => ?_⟩
    rw [av_fetchCandles_error_no_set net now url c e h]
    exact cache_get_none_mapGet c now _ hnd
      (av_fetchCandles_error_miss net now url c e h)

/-- Witness for `fetch_error_no_store`: a failing network call against an
empty cache leaves the cache without an entry for the key, in both variants. -/
theorem fetch_error_no_store_witness :
    (TD.fetchCandles (.fetchError "boom") 0 "u" "EURUSD" "daily" ⟨[], 10⟩).cache
      = (Cache.get ⟨[], 10⟩ 0 ("EURUSD" ++ "-" ++ "daily")).2 ∧
    mapGet (TD.fetchCandles (.fetchError "boom") 0 "u" "EURUSD" "daily"
      ⟨[], 10⟩).cache.cache ("EURUSD" ++ "-" ++ "daily") = none ∧
    mapGet (AV.fetchCandles (.fetchError "down") 0 "u" ⟨[], 10⟩).cache.cache
      "u" = none :=
  ⟨(fetch_error_no_store.1 (.fetchError "boom") 0 "u" "EURUSD" "daily"
      ⟨[], 10⟩ "boom" rfl).1,
   (fetch_error_no_store.1 (.fetchError "boom") 0 "u" "EURUSD" "daily"
      ⟨[], 10⟩ "boom" rfl).2 (by simp),
   (fetch_error_no_store.2 (.fetchError "down") 0 "u" ⟨[], 10⟩ "down" rfl).2
     (by simp)⟩

theorem cache_hit_after_set (c : Cache) (k : String) (v : List Candle)
    (t0 t : Nat) (h : t - t0 ≤ c.ttl) :
    Cache.get (Cache.set c t0 k v) t k = (some v, Cache.set c t0 k v) := by
  have hget : mapGet (Cache.set c t0 k v).cache k = some ⟨v, t0⟩ :=
    mapGet_mapSet_self c.cache k ⟨v, t0⟩
  have hn : ¬ (t - (⟨v, t0⟩ : CacheEntry).timestamp > (Cache.set c t0 k v).ttl) := by
    simp only [Cache.set]
    omega
  simp [Cache.get, hget, hn]

theorem cache_get_ttl (c : Cache) (now : Nat) (k : String) :
    ((Cache.get c now k).2).ttl = c.ttl := by
  cases hm : mapGet c.cache k with
  | none => simp [Cache.get, hm]
  | some item =>
    by_cases hexp : now - item.timestamp > c.ttl
    · simp [Cache.get, hm, hexp]
    · simp [Cache.get, hm, hexp]

theorem td_fetchCandles_ok_of_miss (net : TD.NetOutcome) (now : Nat)
    (url pair interval : String) (c : Cache) (res : List Candle)
    (hmiss : (Cache.get c now (pair ++ "-" ++ interval)).1 = none)
    (hok : (TD.fetchCandles net now url pair interval c).result = .ok res) :
    (TD.fetchCandles net now url pair interval c).cache
      = Cache.set (Cache.get c now (pair ++ "-" ++ interval)).2 now
          (pair ++ "-" ++ interval) res ∧
    (TD.fetchCandles net now url pair interval c).networkCalls = 1 := by
  rcases hg : Cache.get c now (pair ++ "-" ++ interval) with ⟨og, c'⟩
  have hogn : og = none := by rw [hg] at hmiss; exact hmiss
  subst hogn
  simp only [TD.fetchCandles] at hok ⊢
  rw [hg] at hok ⊢
  cases net with
  | fetchError msg => simp at hok
  | response ok status statusText body =>
    cases ok with
    | false => simp at hok
    | true =>
      cases body with
      | error jsonMsg => simp at hok
      | ok data =>
        by_cases h1 : data.status = some "error"
        · simp [h1] at hok
        · by_cases h2 : data.code = some 429
          · simp [h1, h2] at hok
          · cases hv : data.values with
            | none => simp [h1, h2, hv] at hok
            | some values =>
              simp only [h1, h2, hv] at hok ⊢
              simp at hok
              simp [← hok]

/-- C4: if the key misses at the first call, the first `fetchCandles`
succeeds, and the second call happens within the TTL window, then the pair
of calls performs exactly one network request: the first stores the result
and the second returns the cached sequence without reaching `fetch`,
regardless of the second call's network environment. -/
theorem fetch_twice_one_network_call (net1 net2 : TD.NetOutcome) (t1 t2 : Nat)
    (url1 url2 pair interval : String) (c : Cache) (res : List Candle)
    (hmiss : (Cache.get c t1 (pair ++ "-" ++ interval)).1 = none)
    (hok : (TD.fetchCandles net1 t1 url1 pair interval c).result = .ok res)
    (hwin : t2 - t1 ≤ c.ttl) :
    (TD.fetchCandles net1 t1 url1 pair interval c).networkCalls = 1 ∧
    TD.fetchCandles net2 t2 url2 pair interval
        (TD.fetchCandles net1 t1 url1 pair interval c).cache
      = ⟨.ok res, (TD.fetchCandles net1 t1 url1 pair interval c).cache, 0⟩ := by
  obtain ⟨hcache, hcalls⟩ :=
    td_fetchCandles_ok_of_miss net1 t1 url1 pair interval c res hmiss hok
  refine ⟨hcalls, ?_⟩
  rw [hcache]
  have httl : ((Cache.get c t1 (pair ++ "-" ++ interval)).2).ttl = c.ttl :=
    cache_get_ttl c t1 (pair ++ "-" ++ interval)
  have hhit := cache_hit_after_set (Cache.get c t1 (pair ++ "-" ++ interval)).2
    (pair ++ "-" ++ interval) res t1 t2 (by rw [httl]; exact hwin)
  simp only [TD.fetchCandles]
  rw [hhit]

/-- Witness for `fetch_twice_one_network_call`: a concrete successful first
call at `t = 0` followed by a second call at `t = 5` with TTL 10. -/
theorem fetch_twice_one_network_call_witness :
    (TD.fetchCandles (.response true 200 "OK" (.ok ⟨none, none, none, some []⟩))
        0 "u" "EURUSD" "daily" ⟨[], 10⟩).networkCalls = 1 ∧
    TD.fetchCandles (.fetchError "no second call") 5 "u" "EURUSD" "daily"
        (TD.fetchCandles (.response true 200 "OK" (.ok ⟨none, none, none, some []⟩))
          0 "u" "EURUSD" "daily" ⟨[], 10⟩).cache
      = ⟨.ok [],
          (TD.fetchCandles (.response true 200 "OK" (.ok ⟨none, none, none, some []⟩))
            0 "u" "EURUSD" "daily" ⟨[], 10⟩).cache, 0⟩ :=
  fetch_twice_one_network_call
    (.response true 200 "OK" (.ok ⟨none, none, none, some []⟩))
    (.fetchError "no second call") 0 5 "u" "u" "EURUSD" "daily" ⟨[], 10⟩ []
    rfl rfl (by decide)

/-- C6: each of the three candle endpoints of the Twelve Data variant
answers a request with an absent or empty `pair` parameter with status 400
and error code `MISSING_PAIR`, leaving the cache untouched and independently
of the demo flag, the random stream and the network environment — so before
any demo generation, cache access or network call. -/
theorem missing_pair_rejected :
    ∀ (demoMode : Bool) (apiKey : String) (fmtTime : Nat → String)
      (rand : Nat → ℚ) (net : TD.NetOutcome) (now : Nat) (c : Cache),
      (TD.handleDaily demoMode apiKey fmtTime rand net now none c
          = (TD.missingPairResp, c) ∧
        TD.handleDaily demoMode apiKey fmtTime rand net now (some "") c
          = (TD.missingPairResp, c)) ∧
      (TD.handleH1 demoMode apiKey fmtTime rand net now none c
          = (TD.missingPairResp, c) ∧
        TD.handleH1 demoMode apiKey fmtTime rand net now (some "") c
          = (TD.missingPairResp, c)) ∧
      (TD.handleM15 demoMode apiKey fmtTime rand net now none c
          = (TD.missingPairResp, c) ∧
        TD.handleM15 demoMode apiKey fmtTime rand net now (some "") c
          = (TD.missingPairResp, c)) := by
  intro demoMode apiKey fmtTime rand net now c
  refine ⟨⟨?_, ?_⟩, ⟨?_, ?_⟩, ?_, ?_⟩ <;>
    simp [TD.handleDaily, TD.handleH1, TD.handleM15, strFalsy]

theorem td_respond_status (out : FetchOut) : (TD.respond out).1.status ≠ 400 := by
  obtain ⟨r, cch, n⟩ := out
  cases r with
  | ok candles => simp [TD.respond, TD.arrayFalsy]
  | error msg =>
    by_cases h : msg = "API_LIMIT" <;> simp [TD.respond, TD.limitResp, h]

/-- C10: the `pair` parameter is validated only for presence: every
non-empty string — 6-letter currency code or not — passes validation (the
daily handler never answers 400 for it) and flows into demo generation or
URL construction, where the URL builders slice whatever characters exist
without error; e.g. for the 2-letter pair `AB` both builders produce a URL
with a truncated or empty quote code. -/
theorem pair_presence_only_validation :
    (∀ (pair : String), pair ≠ "" →
      ∀ (demoMode : Bool) (apiKey : String) (fmtTime : Nat → String)
        (rand : Nat → ℚ) (net : TD.NetOutcome) (now : Nat) (c : Cache),
        (TD.handleDaily demoMode apiKey fmtTime rand net now (some pair) c).1.status
          ≠ 400) ∧
    TD.twelveDataUrl "KEY" "AB" "daily"
      = "https://api.twelvedata.com/time_series?symbol=AB/&interval=1day&outputsize=100&apikey=KEY" ∧
    AV.alphaUrl "KEY" "AB" "daily"
      = "https://www.alphavantage.co/query?function=FX_DAILY&from_symbol=AB&to_symbol=&apikey=KEY" := by
  refine ⟨?_, by decide, by decide⟩
  intro pair hp demoMode apiKey fmtTime rand net now c
  have hf : strFalsy (some pair) = false := by
    simp [strFalsy, hp]
  unfold TD.handleDaily
  rw [hf]
  simp only [Bool.false_eq_true, if_false]
  by_cases hd : demoMode = true
  · simp [hd]
  · simp only [hd, if_false]
    exact td_respond_status _

/-- Witness for `pair_presence_only_validation`: the 2-letter pair `AB`
passes validation in live mode against a failing network. -/
theorem pair_presence_only_validation_witness :
    ("AB" : String) ≠ "" ∧
    (TD.handleDaily false "KEY" (fun _ => "d") (fun _ => 0)
      (.fetchError "down") 0 (some "AB") ⟨[], 10⟩).1.status ≠ 400 :=
  ⟨by decide,
   pair_presence_only_validation.1 "AB" (by decide) false "KEY" (fun _ => "d")
     (fun _ => 0) (.fetchError "down") 0 ⟨[], 10⟩⟩

theorem td_asc_of_desc (values : List TD.TDItem)
    (h : List.Chain' (fun a b => strLe b.datetime a.datetime = true) values) :
    ascByTime ((values.map TD.toCandle).reverse) := by
  rw [ascByTime, List.chain'_reverse, List.chain'_map]
  exact h

theorem av_asc_of_desc (series : List (String × AV.AVOhlc))
    (h : List.Chain' (fun a b => strLe b.1 a.1 = true) series) :
    ascByTime ((series.map AV.toCandle).reverse) := by
  rw [ascByTime, List.chain'_reverse, List.chain'_map]
  exact h

/-- C2 (amended): for every `fetchCandles` call that reaches the network
(cache miss) and succeeds, if the upstream series is ordered newest-first —
as the providers return it — then the returned candle sequence is sorted
ascending by `time`, oldest first.  (The code reverses rather than sorts, so
the ascending order is not guaranteed for arbitrary upstream orderings; see
the counterexample.) -/
theorem fetch_sorted_of_newest_first :
    (∀ (now : Nat) (url pair interval : String) (c : Cache) (st : Nat)
       (stx : String) (data : TD.TDResponse) (values : List TD.TDItem),
       (Cache.get c now (pair ++ "-" ++ interval)).1 = none →
       data.values = some values →
       List.Chain' (fun a b => strLe b.datetime a.datetime = true) values →
       ∀ res,
         (TD.fetchCandles (.response true st stx (.ok data)) now url pair
           interval c).result = .ok res →
         ascByTime res) ∧
    (∀ (now : Nat) (url : String) (c : Cache) (st : Nat) (stx : String)
       (data : AV.AVResponse) (series : List (String × AV.AVOhlc)),
       (Cache.get c now url).1 = none →
       data.timeSeries = some series →
       List.Chain' (fun a b => strLe b.1 a.1 = true) series →
       ∀ res,
         (AV.fetchCandles (.response true st stx (.ok data)) now url c).result
           = .ok res →
         ascByTime res) := by
  constructor
  · intro now url pair interval c st stx data values hmiss hvals hdesc res hres
    rcases hg : Cache.get c now (pair ++ "-" ++ interval) with ⟨og, c'⟩
    have hogn : og = none := by rw [hg] at hmiss; exact hmiss
    subst hogn
    simp only [TD.fetchCandles] at hres
    rw [hg] at hres
    by_cases h1 : data.status = some "error"
    · simp [h1] at hres
    · by_cases h2 : data.code = some 429
      · simp [h1, h2] at hres
      · simp only [h1, h2, hvals] at hres
        simp at hres
        rw [← hres]
        exact td_asc_of_desc values hdesc
  · intro now url c st stx data series hmiss hser hdesc res hres
    rcases hg : Cache.get c now url with ⟨og, c'⟩
    have hogn : og = none := by rw [hg] at hmiss; exact hmiss
    subst hogn
    simp only [AV.fetchCandles] at hres
    rw [hg] at hres
    by_cases h1 : optTruthy data.note = true
    · simp [h1] at hres
    · by_cases h2 : optTruthy data.errorMessage = true
      · simp [h1, h2] at hres
      · simp only [h1, h2, hser] at hres
        simp at hres
        rw [← hres]
        exact av_asc_of_desc series hdesc

/-- Witness for `fetch_sorted_of_newest_first`: a concrete newest-first
series of two days comes back sorted oldest-first. -/
theorem fetch_sorted_of_newest_first_witness :
    ascByTime [⟨"2024-01-01", 1, 1, 1, 1⟩, ⟨"2024-01-02", 1, 1, 1, 1⟩] :=
  fetch_sorted_of_newest_first.1 0 "u" "EURUSD" "daily" ⟨[], 10⟩ 200 "OK"
    ⟨none, none, none,
      some [⟨"2024-01-02", 1, 1, 1, 1⟩, ⟨"2024-01-01", 1, 1, 1, 1⟩]⟩
    [⟨"2024-01-02", 1, 1, 1, 1⟩, ⟨"2024-01-01", 1, 1, 1, 1⟩] rfl rfl
    (by simp only [List.chain'_cons, List.chain'_singleton, and_true]; decide)
    [⟨"2024-01-01", 1, 1, 1, 1⟩, ⟨"2024-01-02", 1, 1, 1, 1⟩] rfl

/-- Counterexample to C2 as stated: with an upstream ordering that is not
newest-first (times 02, 01, 03), the successful `fetchCandles` result is the
mere reversal (03, 01, 02), which is not sorted ascending by `time`. -/
theorem fetch_sorted_counterexample :
    (TD.fetchCandles (.response true 200 "OK"
        (.ok ⟨none, none, none,
          some [⟨"2024-01-02", 1, 1, 1, 1⟩, ⟨"2024-01-01", 1, 1, 1, 1⟩,
            ⟨"2024-01-03", 1, 1, 1, 1⟩]⟩))
      0 "u" "EURUSD" "daily" ⟨[], 10⟩).result
      = .ok [⟨"2024-01-03", 1, 1, 1, 1⟩, ⟨"2024-01-01", 1, 1, 1, 1⟩,
          ⟨"2024-01-02", 1, 1, 1, 1⟩] ∧
    ¬ ascByTime [⟨"2024-01-03", 1, 1, 1, 1⟩, ⟨"2024-01-01", 1, 1, 1, 1⟩,
        ⟨"2024-01-02", 1, 1, 1, 1⟩] := by
  constructor
  · rfl
  · intro h
    rw [ascByTime, List.chain'_cons] at h
    exact absurd h.1 (by decide)

/-- C1 (amended): in live mode, on a cache miss, a Twelve Data response with
`code = 429` is classified as the rate-limit error and answered with HTTP 429
and body error `API_LIMIT_REACHED` **provided** its `status` field is not
`'error'` (the generic-error check runs first); an AlphaVantage response with
a truthy `Note` field is so answered unconditionally, even when the generic
`Error Message` field is also present. -/
theorem rate_limit_classification :
    (∀ (apiKey : String) (fmtTime : Nat → String) (rand : Nat → ℚ) (now : Nat)
       (pair : String) (st : Nat) (stx : String) (data : TD.TDResponse)
       (c : Cache),
       pair ≠ "" →
       (Cache.get c now (pair ++ "-" ++ "daily")).1 = none →
       data.status ≠ some "error" →
       data.code = some 429 →
       TD.handleDaily false apiKey fmtTime rand
           (.response true st stx (.ok data)) now (some pair) c
         = (TD.limitResp, (Cache.get c now (pair ++ "-" ++ "daily")).2)) ∧
    (∀ (apiKey : String) (fmtTime : Nat → String) (rand : Nat → ℚ) (now : Nat)
       (pair : String) (st : Nat) (stx : String) (data : AV.AVResponse)
       (c : Cache),
       pair ≠ "" →
       (Cache.get c now (AV.alphaUrl apiKey pair "daily")).1 = none →
       optTruthy data.note = true →
       AV.handleDaily false apiKey fmtTime rand
           (.response true st stx (.ok data)) now (some pair) c
         = (AV.limitResp, (Cache.get c now (AV.alphaUrl apiKey pair "daily")).2)) := by
  constructor
  · intro apiKey fmtTime rand now pair st stx data c hp hmiss hstat hcode
    have hf : strFalsy (some pair) = false := by simp [strFalsy, hp]
    unfold TD.handleDaily
    rw [hf]
    rcases hg : Cache.get c now (pair ++ "-" ++ "daily") with ⟨og, c'⟩
    have hogn : og = none := by rw [hg] at hmiss; exact hmiss
    subst hogn
    simp only [Bool.false_eq_true, if_false, Option.getD_some, TD.fetchCandles]
    rw [hg]
    simp [hstat, hcode, catchMap, TD.respond]
  · intro apiKey fmtTime rand now pair st stx data c hp hmiss hnote
    have hf : strFalsy (some pair) = false := by simp [strFalsy, hp]
    unfold AV.handleDaily
    rw [hf]
    rcases hg : Cache.get c now (AV.alphaUrl apiKey pair "daily") with ⟨og, c'⟩
    have hogn : og = none := by rw [hg] at hmiss; exact hmiss
    subst hogn
    simp only [Bool.false_eq_true, if_false, Option.getD_some, AV.fetchCandles]
    rw [hg]
    simp [hnote, catchMap, AV.respond]

/-- Witness for `rate_limit_classification`: a Twelve Data body
`{code: 429}` without `status: 'error'`, and an AlphaVantage body carrying
both `Note` and `Error Message`, both answered 429/`API_LIMIT_REACHED`. -/
theorem rate_limit_classification_witness :
    TD.handleDaily false "KEY" (fun _ => "d") (fun _ => 0)
      (.response true 200 "OK" (.ok ⟨none, some 429, none, none⟩))
      0 (some "EURUSD") ⟨[], 10⟩
      = (TD.limitResp, (Cache.get ⟨[], 10⟩ 0 ("EURUSD" ++ "-" ++ "daily")).2) ∧
    AV.handleDaily false "KEY" (fun _ => "d") (fun _ => 0)
      (.response true 200 "OK"
        (.ok ⟨some "limit note", some "generic error", none⟩))
      0 (some "EURUSD") ⟨[], 10⟩
      = (AV.limitResp,
          (Cache.get ⟨[], 10⟩ 0 (AV.alphaUrl "KEY" "EURUSD" "daily")).2) :=
  ⟨rate_limit_classification.1 "KEY" (fun _ => "d") (fun _ => 0) 0 "EURUSD" 200
      "OK" ⟨none, some 429, none, none⟩ ⟨[], 10⟩ (by decide) rfl (by decide) rfl,
   rate_limit_classification.2 "KEY" (fun _ => "d") (fun _ => 0) 0 "EURUSD" 200
      "OK" ⟨some "limit note", some "generic error", none⟩ ⟨[], 10⟩ (by decide)
      rfl rfl⟩

/-- Counterexample to C1 as stated: a Twelve Data response carrying the
rate-limit signal `code: 429` **together with** the generic error field
`status: 'error'` (as real Twelve Data 429 payloads do) is classified as the
generic error first: the handler answers 500 `SERVER_ERROR`, not 429. -/
theorem rate_limit_classification_counterexample :
    TD.handleDaily false "KEY" (fun _ => "d") (fun _ => 0)
      (.response true 200 "OK"
        (.ok ⟨some "error", some 429, some "limit", none⟩))
      0 (some "EURUSD") ⟨[], 10⟩
      = (⟨500, .errorBody "SERVER_ERROR" "API_ERROR: limit"⟩, ⟨[], 10⟩) := by
  rfl

theorem round5_mono {x y : ℚ} (h : x ≤ y) : round5 x ≤ round5 y := by
  unfold round5
  have h2 : round (x * 100000) ≤ round (y * 100000) := by
    rw [round_eq, round_eq]
    exact Int.floor_le_floor (by linarith)
  have h3 : ((round (x * 100000) : ℤ) : ℚ) ≤ ((round (y * 100000) : ℤ) : ℚ) := by
    exact_mod_cast h2
  linarith

theorem step_candleOk (t : String) (o cl off1 off2 : ℚ) (h1 : 0 ≤ off1)
    (h2 : 0 ≤ off2) :
    candleOk ⟨t, round5 o, round5 (max o cl + off1), round5 (min o cl - off2),
      round5 cl⟩ := by
  refine ⟨round5_mono ?_, round5_mono ?_, round5_mono ?_, round5_mono ?_⟩
  · have := min_le_left o cl
    linarith
  · have := min_le_right o cl
    linarith
  · have := le_max_left o cl
    linarith
  · have := le_max_right o cl
    linarith

theorem genDemoAux_length (fmtTime : Nat → String) (vol : ℚ) (rand : Nat → ℚ) :
    ∀ (rem i : Nat) (price : ℚ),
      (genDemoAux fmtTime vol rand rem i price).length = rem := by
  intro rem
  induction rem with
  | zero => intro i price; rfl
  | succ n ih => intro i price; simp [genDemoAux, ih]

theorem genDemoAux_candleOk (fmtTime : Nat → String) (vol : ℚ) (rand : Nat → ℚ)
    (hvol : 0 ≤ vol) (hrand : ∀ n, 0 ≤ rand n) :
    ∀ (rem i : Nat) (price : ℚ) (cd : Candle),
      cd ∈ genDemoAux fmtTime vol rand rem i price → candleOk cd := by
  intro rem
  induction rem with
  | zero => intro i price cd h; simp [genDemoAux] at h
  | succ n ih =>
    intro i price cd h
    simp only [genDemoAux, List.mem_cons] at h
    rcases h with h | h
    · subst h
      exact step_candleOk _ _ _ _ _
        (mul_nonneg (mul_nonneg (hrand _) hvol) (by norm_num))
        (mul_nonneg (mul_nonneg (hrand _) hvol) (by norm_num))
    · exact ih (i + 1) _ cd h

/-- C5 (amended): for any `count ≥ 1`, any `basePrice`, and any
**non-negative** `volatility` (as in every call site, which passes 0.01,
0.005 or 0.002), `generateDemoCandles` returns exactly `count` candles and
every candle satisfies `low ≤ open`, `low ≤ close`, `open ≤ high`,
`close ≤ high` after the 5-decimal rounding of each field; for negative
volatility the inequalities fail (see the counterexample). -/
theorem demo_candles_shape (fmtTime : Nat → String) (count : Nat)
    (basePrice vol : ℚ) (rand : Nat → ℚ) (hcount : 1 ≤ count) (hvol : 0 ≤ vol)
    (hrand : ∀ n, 0 ≤ rand n ∧ rand n < 1) :
    (generateDemoCandles fmtTime count basePrice vol rand).length = count ∧
    ∀ cd ∈ generateDemoCandles fmtTime count basePrice vol rand, candleOk cd :=
  ⟨genDemoAux_length fmtTime vol rand count 0 basePrice,
   fun cd h => genDemoAux_candleOk fmtTime vol rand hvol
     (fun n => (hrand n).1) count 0 basePrice cd h⟩

/-- Witness for `demo_candles_shape` at `count = 2`, `basePrice = 1`,
`volatility = 0.01`, constant random stream 1/2. -/
theorem demo_candles_shape_witness :
    (generateDemoCandles (fun _ => "d") 2 1 (1/100) (fun _ => 1/2)).length = 2 ∧
    ∀ cd ∈ generateDemoCandles (fun _ => "d") 2 1 (1/100) (fun _ => 1/2),
      candleOk cd :=
  demo_candles_shape (fun _ => "d") 2 1 (1/100) (fun _ => 1/2) (by norm_num)
    (by norm_num) (fun n => ⟨by norm_num, by norm_num⟩)

/-- Counterexample to C5 as stated: with `volatility = -1` (the claim
quantifies over *any* volatility) and admissible random values 1/2 ∈ [0,1),
the single generated candle has `high = -0.15 < open = 0` and
`low = 0.15 > open`, violating the claimed inequalities. -/
theorem demo_candles_shape_counterexample :
    generateDemoCandles (fun _ => "d") 1 0 (-1) (fun _ => 1/2)
      = [⟨"d", 0, -3/20, 3/20, 0⟩] ∧
    ¬ candleOk ⟨"d", 0, -3/20, 3/20, 0⟩ ∧
    (0 : ℚ) ≤ 1/2 ∧ (1/2 : ℚ) < 1 := by
  refine ⟨?_, ?_, by norm_num, by norm_num⟩
  · norm_num [generateDemoCandles, genDemoAux, round5, round_eq]
  · intro h
    rcases h with ⟨h1, -⟩
    norm_num at h1

end Forex
